import Mathlib

/-!
Shallow embedding of the whatsapp-automation-bot repository
(src/app.py and src/whatsapp_bot.py).

The embedding models the session data (class WhatsAppBot), the bot
operations close / get_qr_code_path / initialize_session / send_message,
and the app-level registry operations get_or_create_bot,
cleanup_old_sessions, delete_session together with the /send and /qr
routes.  External effects (selenium calls, the filesystem, the clock) are
provided as explicit inputs: the outcome of each selenium-backed helper is
a boolean field of SendEnv, file existence is a boolean field of the
session record, and times are integer parameters.
-/

/-- A Python value appearing in the JSON-like result dicts the code builds. -/
inductive PyVal where
  | bool (b : Bool)
  | str (s : String)
deriving DecidableEq, Repr

/-- A Python dict with string keys, as returned by the bot methods and routes. -/
abbrev PyDict := List (String × PyVal)

/-- Python truthiness of a dict value: a dict is truthy iff it is non-empty.
All result dicts built by WhatsAppBot.send_message are non-empty, which is
the root cause of the /send route bug (app.py line 147). -/
def pyTruthy (d : PyDict) : Bool := !d.isEmpty

/-- The boolean stored under the key success of a result dict. -/
def pySuccess (d : PyDict) : Bool :=
  match d.lookup "success" with
  | some (PyVal.bool b) => b
  | _ => false

/-- Python truthiness of an optional string (None and the empty string are falsy). -/
def optStrTruthy : Option String → Bool
  | none => false
  | some s => !(s == "")

/-- Python str.startswith, on ASCII strings. -/
def py_startswith (s pre : String) : Bool := pre.data.isPrefixOf s.data

/-- The digit characters of a string, in order
(Python: join of filter(str.isdigit, phone_number), restricted to ASCII digits). -/
def digitsOf (s : String) : String := String.mk (s.data.filter Char.isDigit)

/-- Phone normalization from WhatsAppBot.send_message
(src/whatsapp_bot.py lines 288-290): keep only digits, and when the result
does not start with 91 and has exactly 10 digits, prepend 91. -/
def clean_phone_of (phone_number : String) : String :=
  let clean := digitsOf phone_number
  if !(py_startswith clean "91") && (clean.length == 10) then "91" ++ clean
  else clean

/-- The state of one WhatsAppBot instance (src/whatsapp_bot.py, class WhatsAppBot).
Fields device_id, session_dir, qr_code_path, profile_dir, driver,
is_authenticated, last_activity are the instance attributes set in the
constructor (lines 24-39).  The remaining fields are embedding bookkeeping:
bot_id gives object identity, registry_key records under which device id the
app registry created the bot, qr_file_exists models
os.path.exists(self.qr_code_path), and quit_raises records whether a call to
self.driver.quit() for this driver process raises an exception. -/
structure WhatsAppBot where
  bot_id : Nat
  registry_key : String
  device_id : String
  session_dir : String
  qr_code_path : String
  profile_dir : String
  driver : Option Nat
  is_authenticated : Bool
  qr_file_exists : Bool
  last_activity : Int
  quit_raises : Bool
deriving DecidableEq, Repr

/-- WhatsAppBot constructor (src/whatsapp_bot.py lines 24-39).
session_dir is sessions/ followed by device_id, qr_code_path is qr_codes/
followed by device_id and the suffix _qr.png, profile_dir defaults to the
user_data subdirectory of session_dir when no profile_dir argument is given.
The driver starts absent, is_authenticated starts false, last_activity is
set to the construction time. -/
def WhatsAppBot.init (bot_id : Nat) (registry_key device_id : String)
    (profile_dir : Option String) (now : Int) (qr_file_exists quit_raises : Bool) :
    WhatsAppBot :=
  { bot_id := bot_id
    registry_key := registry_key
    device_id := device_id
    session_dir := "sessions/" ++ device_id
    qr_code_path := "qr_codes/" ++ device_id ++ "_qr.png"
    profile_dir := profile_dir.getD ("sessions/" ++ device_id ++ "/user_data")
    driver := none
    is_authenticated := false
    qr_file_exists := qr_file_exists
    last_activity := now
    quit_raises := quit_raises }

/-- WhatsAppBot.close (src/whatsapp_bot.py lines 447-457).  The whole body is
guarded by `if self.driver:`, so a session without a driver is left
unchanged.  When the driver is present, driver.quit() runs first; if it
raises, the except clause catches the exception and the remaining statements
(clearing driver and is_authenticated, deleting the qr image file) are all
skipped, leaving the state unchanged. -/
def WhatsAppBot.close (s : WhatsAppBot) : WhatsAppBot :=
  match s.driver with
  | none => s
  | some _ =>
      if s.quit_raises then s
      else { s with driver := none, is_authenticated := false, qr_file_exists := false }

/-- WhatsAppBot.get_qr_code_path (src/whatsapp_bot.py lines 444-445): the
stored qr_code_path string when the file exists on disk, otherwise None. -/
def WhatsAppBot.get_qr_code_path (s : WhatsAppBot) : Option String :=
  if s.qr_file_exists then some s.qr_code_path else none

/-- Outcomes of the external selenium-backed helpers invoked during
initialize_session and send_message.  Each field is the boolean return value
of one helper for the call under consideration. -/
structure SendEnv where
  /-- _setup_driver (lines 87-175) -/
  driver_setup_ok : Bool
  /-- first _check_authentication inside initialize_session (line 186) -/
  auth_on_load : Bool
  /-- _wait_for_qr_code (line 190) -/
  qr_appears : Bool
  /-- _save_qr_code (line 193) -/
  qr_save_ok : Bool
  /-- _wait_for_authentication (line 194) -/
  auth_within_timeout : Bool
  /-- second _check_authentication inside initialize_session (line 202) -/
  auth_late_check : Bool
  /-- _check_authentication called from send_message (line 283) -/
  recheck_auth : Bool
  /-- _wait_for_chat_to_load (line 296) -/
  chat_loads : Bool
  /-- os.path.exists(media_path) (line 299) -/
  media_file_exists : Bool
  /-- _send_media (line 300) -/
  media_send_ok : Bool
  /-- _send_text_message (line 304) -/
  text_send_ok : Bool
deriving DecidableEq, Repr

/-- WhatsAppBot.initialize_session (src/whatsapp_bot.py lines 177-208).
On a successful driver setup the driver attribute is assigned; the
successful authentication paths set is_authenticated to true (inside
_check_authentication, line 271, and _wait_for_authentication, line 254);
a successful _save_qr_code writes the qr image file.  Note that
initialize_session itself never touches last_activity. -/
def WhatsAppBot.init_session (env : SendEnv) (s : WhatsAppBot) : PyDict × WhatsAppBot :=
  if !env.driver_setup_ok then
    ([("success", PyVal.bool false), ("error", PyVal.str "Failed to setup WebDriver")], s)
  else
    let s1 := { s with driver := some 1 }
    if env.auth_on_load then
      ([("success", PyVal.bool true), ("qr_required", PyVal.bool false)],
       { s1 with is_authenticated := true })
    else if env.qr_appears then
      let s2 := if env.qr_save_ok then { s1 with qr_file_exists := true } else s1
      if env.auth_within_timeout then
        ([("success", PyVal.bool true), ("qr_required", PyVal.bool true)],
         { s2 with is_authenticated := true })
      else
        ([("success", PyVal.bool false), ("error", PyVal.str "Authentication timeout")], s2)
    else if env.auth_late_check then
      ([("success", PyVal.bool true), ("qr_required", PyVal.bool false)],
       { s1 with is_authenticated := true })
    else
      ([("success", PyVal.bool false), ("error", PyVal.str "Unable to load WhatsApp Web")], s1)

/-- The observable outcome of one WhatsAppBot.send_message call: the returned
dict, the session state afterwards, the chat url navigated to (None when a
failure happened before navigation), whether _send_media was invoked,
whether the media-failure warning was logged, and whether
_send_text_message was invoked. -/
structure SendOut where
  result : PyDict
  sess : WhatsAppBot
  navigated_chat_url : Option String
  media_attempted : Bool
  media_fail_logged : Bool
  text_attempted : Bool
deriving DecidableEq, Repr

/-- WhatsAppBot.send_message (src/whatsapp_bot.py lines 276-311).
If the driver is absent, initialize_session runs first and its failure dict
is returned on failure.  If the session is not flagged authenticated, a
_check_authentication recheck runs (setting the flag on success) and on
failure initialize_session runs again.  Then the phone number is normalized,
the chat deep link is loaded, the readiness gate runs, media is attempted
only when a truthy media path names an existing file (a media failure only
logs a warning), and a text failure returns the failure dict.  No branch of
this method updates last_activity. -/
def WhatsAppBot.send_message (env : SendEnv) (s : WhatsAppBot) (phone_number : String)
    (message media_path : Option String) : SendOut :=
  let step1 : Sum (PyDict × WhatsAppBot) WhatsAppBot :=
    if s.driver = none then
      let r := WhatsAppBot.init_session env s
      if pySuccess r.1 then Sum.inr r.2 else Sum.inl r
    else Sum.inr s
  match step1 with
  | Sum.inl r => ⟨r.1, r.2, none, false, false, false⟩
  | Sum.inr s1 =>
    let step2 : Sum (PyDict × WhatsAppBot) WhatsAppBot :=
      if s1.is_authenticated then Sum.inr s1
      else if env.recheck_auth then Sum.inr { s1 with is_authenticated := true }
      else
        let r := WhatsAppBot.init_session env s1
        if pySuccess r.1 then Sum.inr r.2 else Sum.inl r
    match step2 with
    | Sum.inl r => ⟨r.1, r.2, none, false, false, false⟩
    | Sum.inr s2 =>
      let chat_url := "https://web.whatsapp.com/send?phone=" ++ clean_phone_of phone_number
      if !env.chat_loads then
        ⟨[("success", PyVal.bool false),
          ("error", PyVal.str "Failed to load chat interface")],
         s2, some chat_url, false, false, false⟩
      else
        let media_att := optStrTruthy media_path && env.media_file_exists
        let media_logged := media_att && !env.media_send_ok
        let msg_t := optStrTruthy message
        if msg_t && !env.text_send_ok then
          ⟨[("success", PyVal.bool false),
            ("error", PyVal.str "Failed to send text message")],
           s2, some chat_url, media_att, media_logged, msg_t⟩
        else
          ⟨[("success", PyVal.bool true)], s2, some chat_url, media_att, media_logged, msg_t⟩

/-- The registry state of src/app.py: the counter supplying fresh object
identities (embedding bookkeeping), the bot_instances dict as an insertion
ordered association list, and the dropped list recording, for bookkeeping,
each bot value at the moment it stopped being reachable through
bot_instances (removed or overwritten). -/
structure RegSt where
  next_id : Nat
  registry : List (String × WhatsAppBot)
  dropped : List WhatsAppBot
deriving DecidableEq, Repr

/-- Assignment into a Python dict modelled as an association list: replace
the value in place when the key is present, otherwise append the pair. -/
def setReg (d : String) (b : WhatsAppBot) :
    List (String × WhatsAppBot) → List (String × WhatsAppBot)
  | [] => [(d, b)]
  | (k, v) :: rest => if k == d then (k, b) :: rest else (k, v) :: setReg d b rest

/-- app.get_or_create_bot (src/app.py lines 42-51).  Returns the registered
bot when present and force_new is not set; otherwise constructs a new
WhatsAppBot and registers it.  Two faithful details: the constructor call on
line 49 passes only headless and profile_dir, so the new bot receives the
default device_id value, the string default, while the profile_dir argument
is SESSIONS_DIR / device_id, the string sessions/ followed by the device id;
and nothing closes a bot that the assignment on line 50 overwrites. -/
def get_or_create_bot (now : Int) (device_id : String) (force_new : Bool)
    (σ : RegSt) : WhatsAppBot × RegSt :=
  match σ.registry.lookup device_id with
  | some b =>
      if force_new then
        let nb := WhatsAppBot.init σ.next_id device_id "default"
          (some ("sessions/" ++ device_id)) now false false
        (nb, ⟨σ.next_id + 1, setReg device_id nb σ.registry, σ.dropped ++ [b]⟩)
      else (b, σ)
  | none =>
      let nb := WhatsAppBot.init σ.next_id device_id "default"
        (some ("sessions/" ++ device_id)) now false false
      (nb, ⟨σ.next_id + 1, setReg device_id nb σ.registry, σ.dropped⟩)

/-- app.cleanup_old_sessions (src/app.py lines 53-66).  Iterates over a
snapshot of the registry items; for each entry whose idle time strictly
exceeds the timeout it calls bot.close() and deletes the entry.  The body of
the loop sits in a try/except, but close itself catches every exception
(src/whatsapp_bot.py line 456) and the deletion itself cannot raise in the
sequential model, so every over-timeout entry is deleted and the loop always
processes all entries.  Returns the remaining entries together with the
evicted entries (each evicted bot shown in its state after close ran). -/
def cleanup_old_sessions (current_time timeout_seconds : Int) :
    List (String × WhatsAppBot) → List (String × WhatsAppBot) × List (String × WhatsAppBot)
  | [] => ([], [])
  | (d, b) :: rest =>
      let r := cleanup_old_sessions current_time timeout_seconds rest
      if current_time - b.last_activity > timeout_seconds then
        (r.1, (d, WhatsAppBot.close b) :: r.2)
      else
        ((d, b) :: r.1, r.2)

/-- app.delete_session route (src/app.py lines 170-185): when the device is
registered, close the bot and delete the dict entry; the closed bot value is
recorded in dropped at the moment it left the registry. -/
def delete_session (device_id : String) (σ : RegSt) : PyDict × RegSt :=
  match σ.registry.lookup device_id with
  | none =>
      ([("success", PyVal.bool true),
        ("message", PyVal.str ("Session " ++ device_id ++ " deleted"))], σ)
  | some b =>
      ([("success", PyVal.bool true),
        ("message", PyVal.str ("Session " ++ device_id ++ " deleted"))],
       ⟨σ.next_id,
        σ.registry.filter (fun p => p.1 != device_id),
        σ.dropped ++ [WhatsAppBot.close b]⟩)

/-- The registry effect of the app.initialize_session route (src/app.py
lines 68-116): get_or_create_bot, then, unless the bot is already flagged
authenticated, bot.initialize_session mutates the registered bot. -/
def init_route (env : SendEnv) (now : Int) (device_id : String) (σ : RegSt) : RegSt :=
  let r := get_or_create_bot now device_id false σ
  if r.1.is_authenticated then r.2
  else { r.2 with
         registry := setReg device_id (WhatsAppBot.init_session env r.1).2 r.2.registry }

/-- app.send_message route, POST /send/<device_id> (src/app.py lines
132-168), for a request whose JSON body carries the given optional phone and
message fields, acting on the registered bot for the device (the response
timestamp field is omitted from the model).  The local variable success on
line 145 is the dict returned by bot.send_message, and line 147 branches on
the truthiness of that dict. -/
def send_route (env : SendEnv) (s : WhatsAppBot) (device_id : String)
    (phone message : Option String) : Nat × PyDict × WhatsAppBot :=
  if !optStrTruthy phone || !optStrTruthy message then
    (400, [("success", PyVal.bool false),
           ("error", PyVal.str "phone and message fields are required")], s)
  else
    let out := WhatsAppBot.send_message env s (phone.getD "") message none
    if pyTruthy out.result then
      (200, [("success", PyVal.bool true), ("device_id", PyVal.str device_id),
             ("phone", PyVal.str (phone.getD ""))], out.sess)
    else
      (500, [("success", PyVal.bool false),
             ("error", PyVal.str "Failed to send message"),
             ("device_id", PyVal.str device_id)], out.sess)

/-- Responses of the GET /qr/<device_id> route: a PNG file served from disk,
or a JSON body with a status code. -/
inductive QrResp where
  | png (path : String)
  | json (status : Nat) (body : PyDict)
deriving DecidableEq, Repr

/-- app.get_qr_code route, GET /qr/<device_id> (src/app.py lines 118-130),
acting on the bot registered for the device.  bot.get_qr_code_path returns a
Python str (the attribute is built with an f-string, src/whatsapp_bot.py
line 29) or None.  When a str comes back, line 125 evaluates
qr_path.exists(), but the str type has no attribute named exists, so an
AttributeError is raised and caught by the except clause on line 128,
producing a 500 JSON response; the send_from_directory branch is
unreachable.  When None comes back, the conjunction short-circuits and the
404 JSON response is returned. -/
def str_has_attr_exists : Bool := false

def get_qr_code_route (s : WhatsAppBot) : QrResp :=
  match WhatsAppBot.get_qr_code_path s with
  | none =>
      QrResp.json 404 [("success", PyVal.bool false),
                       ("error", PyVal.str "QR code not available")]
  | some p =>
      if str_has_attr_exists then QrResp.png p
      else
        QrResp.json 500 [("success", PyVal.bool false),
                         ("error", PyVal.str "str object has no attribute exists")]

/-- Number of live driver handles attributable to a device id: drivers of
bots registered under the id plus drivers of dropped bots that were created
under the id and whose driver was never quit. -/
def live_drivers_for (d : String) (σ : RegSt) : Nat :=
  (σ.registry.filter (fun p => p.1 == d && p.2.driver.isSome)).length
    + (σ.dropped.filter (fun b => b.registry_key == d && b.driver.isSome)).length

/-! Concrete fixtures used by the claim theorems and witnesses. -/

/-- An environment in which every selenium helper relevant to a routine send
succeeds. -/
def envReady : SendEnv :=
  { driver_setup_ok := true, auth_on_load := true, qr_appears := false,
    qr_save_ok := false, auth_within_timeout := false, auth_late_check := false,
    recheck_auth := true, chat_loads := true, media_file_exists := false,
    media_send_ok := false, text_send_ok := true }

/-- Like envReady but _send_text_message fails. -/
def envTextFails : SendEnv := { envReady with text_send_ok := false }

/-- A session with a live driver that is already authenticated. -/
def sReady : WhatsAppBot :=
  { WhatsAppBot.init 0 "default" "default" none 1000 false false with
    driver := some 1, is_authenticated := true }

/-- The empty registry. -/
def σ0 : RegSt := ⟨0, [], []⟩

/-- Modelled from the spec wording of the normalization rule (spec section
4.3 and the first testable property of section 8), for comparison with the
source-derived function clean_phone_of: strip all non-digit characters; if
exactly 10 digits remain and no 91 country prefix is present, prepend 91. -/
def spec_normalize_phone (phone : String) : String :=
  let digits := digitsOf phone
  if (digits.length == 10) && !(py_startswith digits "91") then "91" ++ digits
  else digits

/-- C6: the send_message phone normalization agrees with the spec rule, and
the three example inputs of the spec normalize as the spec states:
9876543210 gains the 91 prefix, the formatted +91 number collapses to
919876543210, and an already prefixed 12 digit number is unchanged. -/
theorem C6_phone_normalization :
    (∀ s : String, clean_phone_of s = spec_normalize_phone s) ∧
    clean_phone_of "9876543210" = "919876543210" ∧
    clean_phone_of "+91 98765 43210" = "919876543210" ∧
    clean_phone_of "919876543210" = "919876543210" := by
  refine ⟨fun s => ?_, by decide, by decide, by decide⟩
  unfold clean_phone_of spec_normalize_phone
  cases h1 : py_startswith (digitsOf s) "91" <;>
    cases h2 : ((digitsOf s).length == 10) <;> simp [h1, h2]

/-- C1 (code bug): with a live authenticated session whose text send fails,
bot.send_message returns a dict whose success field is false, yet the /send
route answers HTTP 200 with success true, because the route branches on the
truthiness of the returned dict (app.py line 147) and every result dict of
send_message is non-empty. -/
theorem C1_send_route_truthiness :
    pySuccess (WhatsAppBot.send_message envTextFails sReady "9876543210"
      (some "hello") none).result = false ∧
    (send_route envTextFails sReady "default" (some "9876543210") (some "hello")).1
      = 200 ∧
    pySuccess (send_route envTextFails sReady "default" (some "9876543210")
      (some "hello")).2.1 = true := by decide

/-- C2 (code bug): a fully successful send_message call leaves last_activity
exactly at its pre-call value; no statement of send_message (or of any
routine it calls) writes last_activity, which is assigned only in the
constructor (src/whatsapp_bot.py line 39). -/
theorem C2_last_activity_not_updated :
    pySuccess (WhatsAppBot.send_message envReady sReady "9876543210"
      (some "hello") none).result = true ∧
    (WhatsAppBot.send_message envReady sReady "9876543210"
      (some "hello") none).sess.last_activity = sReady.last_activity := by decide

/-- C3 (code bug): app.get_or_create_bot never passes device_id to the
WhatsAppBot constructor (app.py line 49), so the constructor default,
the string default, is used: the bots created for the distinct device ids
deviceA and deviceB share the single qr image path qr_codes/default_qr.png.
The profile directory, passed explicitly, is per-device as claimed. -/
theorem C3_qr_path_not_per_device :
    (get_or_create_bot 0 "deviceA" false σ0).1.qr_code_path
      = "qr_codes/default_qr.png" ∧
    (get_or_create_bot 0 "deviceB" false σ0).1.qr_code_path
      = "qr_codes/default_qr.png" ∧
    (get_or_create_bot 0 "deviceA" false σ0).1.qr_code_path
      = (get_or_create_bot 0 "deviceB" false σ0).1.qr_code_path ∧
    (get_or_create_bot 0 "deviceA" false σ0).1.profile_dir = "sessions/deviceA" ∧
    (get_or_create_bot 0 "deviceB" false σ0).1.profile_dir = "sessions/deviceB" := by
  decide

/-- A session whose qr image file exists on disk (for example left over from
an earlier process run) but which has no live driver. -/
def sQrOnDisk : WhatsAppBot := WhatsAppBot.init 0 "default" "default" none 0 true false

/-- C7 (code bug): when the qr image file exists, get_qr_code_path returns a
str, the route evaluates qr_path.exists() on it, the resulting
AttributeError is caught, and the route answers 500 instead of serving the
PNG; when the file is absent the route answers the claimed 404. -/
theorem C7_qr_route_type_error :
    get_qr_code_route sQrOnDisk
      = QrResp.json 500 [("success", PyVal.bool false),
          ("error", PyVal.str "str object has no attribute exists")] ∧
    get_qr_code_route { sQrOnDisk with qr_file_exists := false }
      = QrResp.json 404 [("success", PyVal.bool false),
          ("error", PyVal.str "QR code not available")] := by decide

/-! Helper lemmas about the association-list registry. -/

/-- Looking up the key just assigned by setReg yields the assigned bot. -/
theorem lookup_setReg_self (d : String) (b : WhatsAppBot)
    (l : List (String × WhatsAppBot)) : (setReg d b l).lookup d = some b := by
  induction l with
  | nil => simp [setReg, List.lookup]
  | cons p rest ih =>
      obtain ⟨k, v⟩ := p
      by_cases h : k = d
      · simp [setReg, List.lookup, h]
      · simp [setReg, List.lookup, h, beq_eq_false_iff_ne.mpr (Ne.symm h), ih]

/-- After filtering out a key, looking it up yields none. -/
theorem lookup_filter_ne (d : String) (l : List (String × WhatsAppBot)) :
    (l.filter (fun p => p.1 != d)).lookup d = none := by
  induction l with
  | nil => rfl
  | cons p rest ih =>
      obtain ⟨k, v⟩ := p
      by_cases h : k = d
      · simp [List.filter_cons, h, ih]
      · simp [List.filter_cons, List.lookup, h, beq_eq_false_iff_ne.mpr (Ne.symm h), ih]

/-- C10: calling get_or_create_bot and immediately calling it again for the
same device id without force_new returns the same underlying bot value
(same object identity) and leaves the registry state unchanged. -/
theorem C10_get_or_create_idem (now1 now2 : Int) (d : String) (σ : RegSt) :
    (get_or_create_bot now2 d false (get_or_create_bot now1 d false σ).2).1
      = (get_or_create_bot now1 d false σ).1 ∧
    (get_or_create_bot now2 d false (get_or_create_bot now1 d false σ).2).2
      = (get_or_create_bot now1 d false σ).2 := by
  cases h : σ.registry.lookup d with
  | some b => simp [get_or_create_bot, h]
  | none => simp [get_or_create_bot, h, lookup_setReg_self]

/-- C5 (amended): the idle sweep removes from the registry exactly the
sessions whose idle duration strictly exceeds the timeout (a session idle
for exactly the timeout is kept), leaves every other entry untouched in
order, and applies close to each evicted session: the evicted drivers are
quit except when the quit call raises, in which case the exception is caught
inside close and the session is removed from the registry anyway, with the
remaining sessions still processed. -/
theorem C5_cleanup_amended (now timeout : Int) (l : List (String × WhatsAppBot)) :
    (cleanup_old_sessions now timeout l).1
      = l.filter (fun p => decide (now - p.2.last_activity ≤ timeout)) ∧
    (cleanup_old_sessions now timeout l).2
      = (l.filter (fun p => decide (timeout < now - p.2.last_activity))).map
          (fun p => (p.1, WhatsAppBot.close p.2)) := by
  induction l with
  | nil => exact ⟨rfl, rfl⟩
  | cons p rest ih =>
      obtain ⟨d, b⟩ := p
      by_cases h : timeout < now - b.last_activity
      · simp [cleanup_old_sessions, h, List.filter_cons, ih.1, ih.2]
        rw [if_neg (by omega)]
      · simp [cleanup_old_sessions, h, List.filter_cons, ih.1, ih.2]
        rw [if_pos (by omega)]

/-- A session whose idle time at clock 100 is exactly the timeout 30. -/
def sBoundary : WhatsAppBot := WhatsAppBot.init 0 "a" "default" none 70 false false

/-- A session with a live driver whose quit call raises. -/
def sQuitRaises : WhatsAppBot :=
  { WhatsAppBot.init 1 "b" "default" none 0 false true with driver := some 5 }

/-- C5 (counterexample to the claim as stated): at clock 100 with timeout 30,
the session idle for exactly 30 is kept although its idle duration is at
least the timeout, and the over-timeout session whose quit raises is removed
with its driver handle still live, although the claim says the drivers of
removed sessions are closed.  The sweep still processed every entry. -/
theorem C5_counterexample :
    (100 : Int) - sBoundary.last_activity ≥ 30 ∧
    (cleanup_old_sessions 100 30 [("a", sBoundary), ("b", sQuitRaises)]).1
      = [("a", sBoundary)] ∧
    (cleanup_old_sessions 100 30 [("a", sBoundary), ("b", sQuitRaises)]).2
      = [("b", sQuitRaises)] ∧
    sQuitRaises.driver = some 5 ∧
    (WhatsAppBot.close sQuitRaises).driver = some 5 := by decide

/-- A session with no driver but a leftover qr image file on disk, as after
a process restart with a stale qr_codes file. -/
def sNoDriverQr : WhatsAppBot := WhatsAppBot.init 2 "default" "default" none 0 true false

/-- C9 (counterexample to the claim as stated): on a session without a
driver but with the qr artifact file present, close returns with the file
still present, contradicting the claim that the artifact is deleted whenever
it was present. -/
theorem C9_counterexample :
    sNoDriverQr.driver = none ∧ sNoDriverQr.qr_file_exists = true ∧
    WhatsAppBot.close sNoDriverQr = sNoDriverQr ∧
    (WhatsAppBot.close sNoDriverQr).qr_file_exists = true := by decide

/-- C9 (amended): when a driver is present and its quit does not raise,
close quits the driver, clears the authenticated flag and deletes the qr
artifact; when no driver is present close leaves the session unchanged (in
particular a leftover qr artifact survives); and close is idempotent on
every session state. -/
theorem C9_close_amended (s : WhatsAppBot) :
    (∀ k : Nat, s.driver = some k → s.quit_raises = false →
      (WhatsAppBot.close s).driver = none ∧
      (WhatsAppBot.close s).is_authenticated = false ∧
      (WhatsAppBot.close s).qr_file_exists = false) ∧
    (s.driver = none → WhatsAppBot.close s = s) ∧
    WhatsAppBot.close (WhatsAppBot.close s) = WhatsAppBot.close s := by
  refine ⟨?_, ?_, ?_⟩
  · intro k hd hq
    simp [WhatsAppBot.close, hd, hq]
  · intro hd
    simp [WhatsAppBot.close, hd]
  · cases hd : s.driver with
    | none => simp [WhatsAppBot.close, hd]
    | some k =>
        cases hq : s.quit_raises
        · simp [WhatsAppBot.close, hd, hq]
        · simp [WhatsAppBot.close, hd, hq]

/-- A live authenticated session with a qr artifact whose quit succeeds. -/
def sLive : WhatsAppBot :=
  { WhatsAppBot.init 3 "default" "default" none 0 true false with
    driver := some 5, is_authenticated := true }

/-- Witness for C9_close_amended at the concrete session sLive. -/
theorem C9_close_amended_witness :
    (WhatsAppBot.close sLive).driver = none ∧
    (WhatsAppBot.close sLive).is_authenticated = false ∧
    (WhatsAppBot.close sLive).qr_file_exists = false ∧
    WhatsAppBot.close (WhatsAppBot.close sLive) = WhatsAppBot.close sLive := by
  have h := C9_close_amended sLive
  have h1 := h.1 5 (by decide) (by decide)
  exact ⟨h1.1, h1.2.1, h1.2.2, h.2.2⟩

/-- An environment in which driver setup succeeds and the page is already
authenticated when loaded (profile-restore boot). -/
def envBoot : SendEnv :=
  { driver_setup_ok := true, auth_on_load := true, qr_appears := false,
    qr_save_ok := false, auth_within_timeout := false, auth_late_check := false,
    recheck_auth := false, chat_loads := false, media_file_exists := false,
    media_send_ok := false, text_send_ok := false }

/-- Registry state reached by the operation sequence: initialize device d
(which launches its driver), replace the session with get_or_create_bot
force_new, then initialize the replacement (launching a second driver). -/
def σTwoDrivers : RegSt :=
  init_route envBoot 10 "d"
    ((get_or_create_bot 5 "d" true (init_route envBoot 0 "d" σ0)).2)

/-- C4 (counterexample to the claim as stated): after the sequence above,
two live driver handles exist for device d at the same time, because
get_or_create_bot with force_new overwrote the registered session without
quitting its driver; the replaced session left the registry with its driver
handle still live. -/
theorem C4_counterexample :
    live_drivers_for "d" σTwoDrivers = 2 ∧
    (σTwoDrivers.dropped.filter (fun b => b.driver.isSome)).length = 1 := by decide

/-- C4 (amended): delete_session quits the registered session (its driver is
none afterwards, when the quit call does not raise) before removing it from
the registry, but get_or_create_bot with force_new drops the replaced
session from the registry in exactly the state it had, never quitting its
driver. -/
theorem C4_driver_ownership_amended (now : Int) (σ : RegSt) (d : String)
    (b : WhatsAppBot) (hb : σ.registry.lookup d = some b)
    (hq : b.quit_raises = false) :
    (delete_session d σ).2.registry.lookup d = none ∧
    (delete_session d σ).2.dropped = σ.dropped ++ [WhatsAppBot.close b] ∧
    (WhatsAppBot.close b).driver = none ∧
    (get_or_create_bot now d true σ).2.dropped = σ.dropped ++ [b] := by
  refine ⟨?_, ?_, ?_, ?_⟩
  · simp [delete_session, hb, lookup_filter_ne]
  · simp [delete_session, hb]
  · cases hd : b.driver with
    | none => simp [WhatsAppBot.close, hd]
    | some k => simp [WhatsAppBot.close, hd, hq]
  · simp [get_or_create_bot, hb]

/-- A bot registered for device d holding a live driver. -/
def sRegBot : WhatsAppBot :=
  { WhatsAppBot.init 2 "d" "default" (some "sessions/d") 0 false false with
    driver := some 7 }

/-- A registry holding sRegBot under device d. -/
def σReg : RegSt := ⟨3, [("d", sRegBot)], []⟩

/-- Witness for C4_driver_ownership_amended at the concrete registry σReg. -/
theorem C4_driver_ownership_amended_witness :
    (delete_session "d" σReg).2.registry.lookup "d" = none ∧
    (delete_session "d" σReg).2.dropped = [WhatsAppBot.close sRegBot] ∧
    (WhatsAppBot.close sRegBot).driver = none ∧
    (get_or_create_bot 0 "d" true σReg).2.dropped = [sRegBot] := by
  have h := C4_driver_ownership_amended 0 σReg "d" sRegBot (by decide) (by decide)
  exact ⟨h.1, h.2.1, h.2.2.1, h.2.2.2⟩

/-- On a ready session (live driver, authenticated flag set, chat loads),
send_message reduces to the media/text dispatch stage. -/
theorem send_message_ready (env : SendEnv) (s : WhatsAppBot) (phone : String)
    (message media_path : Option String) (k : Nat) (hk : s.driver = some k)
    (hauth : s.is_authenticated = true) (hchat : env.chat_loads = true) :
    WhatsAppBot.send_message env s phone message media_path =
      (let media_att := optStrTruthy media_path && env.media_file_exists
       let media_logged := media_att && !env.media_send_ok
       let msg_t := optStrTruthy message
       let chat_url := "https://web.whatsapp.com/send?phone=" ++ clean_phone_of phone
       if msg_t && !env.text_send_ok then
         ⟨[("success", PyVal.bool false),
           ("error", PyVal.str "Failed to send text message")],
          s, some chat_url, media_att, media_logged, msg_t⟩
       else
         ⟨[("success", PyVal.bool true)], s, some chat_url, media_att,
          media_logged, msg_t⟩) := by
  simp [WhatsAppBot.send_message, hk, hauth, hchat]

/-- C8: for a send_message call carrying both a media path and a nonempty
text message, on a ready session: when the media file does not exist,
_send_media is never invoked and no media warning is logged while the text
send is still attempted; when the media file exists but the media send
fails, only the warning is logged and the text send is still attempted; a
failing text send makes the overall result a failure dict regardless of the
media outcome; a successful text send yields the success dict. -/
theorem C8_media_text_policy (env : SendEnv) (s : WhatsAppBot) (phone m p : String)
    (hdrv : s.driver ≠ none) (hauth : s.is_authenticated = true)
    (hchat : env.chat_loads = true) (hm : ¬ m = "") (hp : ¬ p = "") :
    (env.media_file_exists = false →
      (WhatsAppBot.send_message env s phone (some m) (some p)).media_attempted = false ∧
      (WhatsAppBot.send_message env s phone (some m) (some p)).media_fail_logged = false ∧
      (WhatsAppBot.send_message env s phone (some m) (some p)).text_attempted = true) ∧
    (env.media_file_exists = true → env.media_send_ok = false →
      (WhatsAppBot.send_message env s phone (some m) (some p)).media_attempted = true ∧
      (WhatsAppBot.send_message env s phone (some m) (some p)).media_fail_logged = true ∧
      (WhatsAppBot.send_message env s phone (some m) (some p)).text_attempted = true) ∧
    (env.text_send_ok = false →
      pySuccess (WhatsAppBot.send_message env s phone (some m) (some p)).result = false) ∧
    (env.text_send_ok = true →
      pySuccess (WhatsAppBot.send_message env s phone (some m) (some p)).result = true) := by
  obtain ⟨k, hk⟩ := Option.ne_none_iff_exists'.mp hdrv
  have hr := send_message_ready env s phone (some m) (some p) k hk hauth hchat
  have hm2 : optStrTruthy (some m) = true := by simp [optStrTruthy, hm]
  have hp2 : optStrTruthy (some p) = true := by simp [optStrTruthy, hp]
  refine ⟨?_, ?_, ?_, ?_⟩
  · intro hmf
    cases hts : env.text_send_ok <;>
      simp [hr, hm2, hp2, hmf, hts, pySuccess, List.lookup]
  · intro hmf hms
    cases hts : env.text_send_ok <;>
      simp [hr, hm2, hp2, hmf, hms, hts, pySuccess, List.lookup]
  · intro hts
    simp [hr, hm2, hp2, hts, pySuccess, List.lookup]
  · intro hts
    simp [hr, hm2, hp2, hts, pySuccess, List.lookup]

/-- Witness for C8_media_text_policy: a ready session, a missing media file,
and a succeeding text send. -/
theorem C8_media_text_policy_witness :
    (WhatsAppBot.send_message envReady sReady "9876543210" (some "hi")
      (some "photo.png")).media_attempted = false ∧
    (WhatsAppBot.send_message envReady sReady "9876543210" (some "hi")
      (some "photo.png")).text_attempted = true ∧
    pySuccess (WhatsAppBot.send_message envReady sReady "9876543210" (some "hi")
      (some "photo.png")).result = true := by
  have h := C8_media_text_policy envReady sReady "9876543210" "hi" "photo.png"
    (by decide) (by decide) (by decide) (by decide) (by decide)
  exact ⟨(h.1 rfl).1, (h.1 rfl).2.2, h.2.2.2 rfl⟩
